import Mathlib

/-
Shallow embedding of the gumroad_automator repository:
  - src/unnamed/part_000         (process-sale: intake webhook handler)
  - src/netlify/functions/get-dashboard.mjs  (dashboard aggregation handler)

External collaborators (the Groq completion service, the Resend email
provider, the Firestore write, the Firestore read) are modelled by
outcome oracles passed in explicitly; the document store is an explicit
association list keyed by document id. JS strings are `String`, absent
JS values are `Option`, JS numbers occurring here are `Rat` with `none`
standing for NaN where it can arise. JS truthiness on strings (empty
string is falsy) and on numbers (0 and NaN are falsy) is modelled at
each use site exactly as the source uses it.
-/

namespace Gumroad

/-! ## JS primitive semantics used by the source -/

/-- Last-wins lookup in a key/value list: `Object.fromEntries` keeps the
last entry for a repeated key, and property access yields `undefined`
(`none`) when the key is missing. -/
def jsGet (saleData : List (String × String)) (k : String) : Option String :=
  ((saleData.filter (fun p => p.1 == k)).getLast?).map (fun p => p.2)

/-- `saleData.k || fallback` on a string property: `undefined` and the
empty string are both falsy, so they select the fallback. `getTruthy`
returns `none` exactly when the property is falsy. -/
def getTruthy (saleData : List (String × String)) (k : String) : Option String :=
  match jsGet saleData k with
  | some v => if v = "" then none else some v
  | none => none

/-- `v || d` on an optional string value (JS truthiness: missing or empty
selects the default). -/
def jsOrStr (v : Option String) (d : String) : String :=
  match v with
  | some s => if s = "" then d else s
  | none => d

/-- Whether `pat` is an initial segment of the second list. -/
def charsLeadWith : List Char → List Char → Bool
  | [], _ => true
  | _ :: _, [] => false
  | c :: cs, d :: ds => c == d && charsLeadWith cs ds

/-- Whether `pat` occurs somewhere in the list. -/
def charsContain (pat : List Char) : List Char → Bool
  | [] => charsLeadWith pat []
  | c :: rest => charsLeadWith pat (c :: rest) || charsContain pat rest

/-- Whether the string `pat` occurs as a substring of `s`. -/
def strContains (s pat : String) : Bool :=
  charsContain pat.data s.data

/-- `s.startsWith(pat)`, decided character by character. -/
def strLeadsWith (s pat : String) : Bool :=
  charsLeadWith pat.data s.data

/-- Leading-whitespace removal, as `parseInt`/`parseFloat` perform before
reading the number. -/
def jsTrimStart (s : String) : String :=
  String.mk (s.data.dropWhile Char.isWhitespace)

/-- Value of a decimal digit run, most significant first. -/
def digitsVal (ds : List Char) : Nat :=
  ds.foldl (fun n c => 10 * n + (c.toNat - 48)) 0

/-- `parseInt(s)` restricted to base-10 inputs: skip leading whitespace,
an optional sign, then the longest run of decimal digits; `none` models
NaN (no digits). The automatic hex mode of a radix-less `parseInt` on a
`0x` prefixed string is not modelled — prices are decimal strings. -/
def jsParseInt (s : String) : Option Int :=
  let t := jsTrimStart s
  let signAndRest : Int × List Char :=
    if strLeadsWith t "-" then (-1, (t.drop 1).data)
    else if strLeadsWith t "+" then (1, (t.drop 1).data)
    else (1, t.data)
  let ds := signAndRest.2.takeWhile Char.isDigit
  if ds.isEmpty then none else some (signAndRest.1 * (digitsVal ds : Int))

/-- `parseFloat(s)` restricted to the plain decimal strings produced in
this codebase (optional sign, integer digits, optional fraction digits);
`none` models NaN (e.g. `parseFloat("NaN")`). The value
`sign * (ip + fp / 10^|fp|)` is assembled as one `Rat.divInt`. -/
def jsParseFloat (s : String) : Option Rat :=
  let t := jsTrimStart s
  let signAndRest : Int × List Char :=
    if strLeadsWith t "-" then (-1, (t.drop 1).data)
    else if strLeadsWith t "+" then (1, (t.drop 1).data)
    else (1, t.data)
  let ip := signAndRest.2.takeWhile Char.isDigit
  let rest := signAndRest.2.drop ip.length
  if ip.isEmpty then none
  else
    match rest with
    | '.' :: tail =>
      let fp := tail.takeWhile Char.isDigit
      some (Rat.divInt
        (signAndRest.1 * ((digitsVal ip : Int) * 10 ^ fp.length + (digitsVal fp : Int)))
        (10 ^ fp.length))
    | _ => some (Rat.divInt (signAndRest.1 * (digitsVal ip : Int)) 1)

/-- Pad a digit string with leading zeros up to width `f`. -/
def padZeros (f : Nat) (s : String) : String :=
  String.mk (List.replicate (f - s.length) '0') ++ s

/-- Integer nearest to `q`, ties toward the larger integer: the `n` of the
ECMAScript `toFixed` specification, namely the floor of `q + 1/2`,
computed on the reduced fraction. -/
def floorHalfUp (q : Rat) : Int :=
  Int.fdiv (2 * q.num + (q.den : Int)) (2 * (q.den : Int))

/-- `q * 10^f`, assembled directly from the fraction so that it evaluates
by kernel reduction. -/
def scalePow10 (f : Nat) (q : Rat) : Rat :=
  Rat.divInt (q.num * 10 ^ f) (q.den : Int)

/-- `x.toFixed(f)`: fixed-point decimal string with `f` fractional digits,
rounding to the nearest multiple of `10^-f` with ties toward the larger
candidate, per the ECMAScript algorithm. (The IEEE-754 representation
error of the double and the `-0` sign are not modelled; the inputs in
the claims' reach are exact decimals.) -/
def jsToFixed (f : Nat) (q : Rat) : String :=
  let n : Int := floorHalfUp (scalePow10 f q)
  let sign := if n < 0 then "-" else ""
  let m := n.natAbs
  if f = 0 then sign ++ toString m
  else sign ++ toString (m / 10 ^ f) ++ "." ++ padZeros f (toString (m % 10 ^ f))

/-- The regex replacement `businessUrl.replace(/^(https?:\/\/)?(www\.)?/, '')`:
strip one optional leading scheme, then one optional leading `www.`. -/
def stripSchemeWww (s : String) : String :=
  let s1 :=
    if strLeadsWith s "https://" then s.drop 8
    else if strLeadsWith s "http://" then s.drop 7
    else s
  if strLeadsWith s1 "www." then s1.drop 4 else s1

/-! ## Report generator (generateAIaudit, part_000 lines 31-56) -/

/-- Shape of the parsed Groq response body, as far as
`data.choices[0]?.message?.content` can observe it. -/
inductive GroqBody where
  /-- `response.json()` itself rejects (body is not JSON). -/
  | unparsable
  /-- `data` is not an object with a `choices` array, so the unguarded
  index `data.choices[0]` throws a TypeError inside the try block. -/
  | noChoices
  /-- `choices[0]?.message?.content` evaluates without throwing;
  `none` when the optional chain or the field yields a nullish value,
  `some s` when content is the string `s`. -/
  | choices (content? : Option String)
  deriving DecidableEq

/-- Outcome of the `fetch` call to the completion service. -/
inductive GroqOutcome where
  /-- The transport rejects: `await fetch` throws. -/
  | fetchThrow
  /-- A response arrived; `ok` is `response.ok`, `body` is what parsing
  the body yields. -/
  | resp (ok : Bool) (body : GroqBody)
  deriving DecidableEq

/-- The deterministic fallback report built in the catch branch,
embedding the business url in its first line. -/
def placeholderReport (businessUrl : String) : String :=
  "**AI-Powered Business Automation Audit for " ++ businessUrl ++
    "**\n\nYour audit is being finalized and will be delivered shortly."

/-- `generateAIaudit(businessUrl)`: one fetch to the completion service;
any thrown error is caught and replaced by the placeholder report;
a nullish or empty content falls back to the fixed string
`"Audit generation completed."` via `||`. -/
def generateAIaudit (businessUrl : String) (o : GroqOutcome) : String :=
  match o with
  | .fetchThrow => placeholderReport businessUrl
  | .resp false _ => placeholderReport businessUrl
  | .resp true .unparsable => placeholderReport businessUrl
  | .resp true .noChoices => placeholderReport businessUrl
  | .resp true (.choices none) => "Audit generation completed."
  | .resp true (.choices (some s)) =>
    if s = "" then "Audit generation completed." else s

/-- The outcomes of `generateAIaudit` in which an exception is thrown
inside the try block and caught (transport fault, non-ok status,
unparsable body, missing choices array). -/
def groqThrows (o : GroqOutcome) : Bool :=
  match o with
  | .fetchThrow => true
  | .resp false _ => true
  | .resp true .unparsable => true
  | .resp true .noChoices => true
  | .resp true (.choices _) => false

/-- The outcomes in which the optional chain evaluates without throwing
but yields a falsy content, so `||` selects the fixed fallback string. -/
def groqNullContent (o : GroqOutcome) : Bool :=
  match o with
  | .resp true (.choices none) => true
  | .resp true (.choices (some s)) => s == ""
  | _ => false

/-! ## Delivery notifier (sendAuditEmail, part_000 lines 61-79) -/

/-- Outcome of the `resend.emails.send` call. -/
inductive EmailOutcome where
  /-- Provider accepted: `{ data: { id }, error: null }`. -/
  | sent (id : String)
  /-- Provider returned an error object, which the source re-throws and
  catches in the same function. -/
  | providerError (msg : String)
  /-- The awaited call itself throws (transport fault). -/
  | sendThrow (msg : String)
  deriving DecidableEq

/-- The `{ success, emailId?, error? }` object `sendAuditEmail` returns. -/
structure EmailResult where
  success : Bool
  emailId : Option String
  error : Option String
  deriving DecidableEq

/-- `sendAuditEmail(customerEmail, businessUrl, auditContent, orderId)`:
sanitizes the order id for the tag, attempts one send, and converts any
error into `{ success: false, error }` without throwing. The bodies of
the outgoing message are built from `auditContent`; they are not
observable past the provider boundary, so only the outcome is kept. -/
def sendAuditEmail (customerEmail : Option String) (businessUrl : String)
    (auditContent : String) (orderId : String) (o : EmailOutcome) : EmailResult :=
  match customerEmail, businessUrl, auditContent, orderId, o with
  | _, _, _, _, .sent id => { success := true, emailId := some id, error := none }
  | _, _, _, _, .providerError msg => { success := false, emailId := none, error := some msg }
  | _, _, _, _, .sendThrow msg => { success := false, emailId := none, error := some msg }

/-! ## Sale ledger (the keyed document store `sales`) -/

/-- The SaleRecord the intake handler writes (part_000 lines 110-119).
`amount` is `parseFloat` of the formatted amount string, with `none`
standing for NaN; `timestamp` is the server-assigned write instant. -/
structure SaleRecord where
  orderId : String
  customerEmail : Option String
  businessUrl : String
  amount : Option Rat
  currency : String
  auditGenerated : Bool
  emailDelivered : Bool
  timestamp : Nat
  deriving DecidableEq

/-- The `sales` collection: keyed documents, one value per document id. -/
abbrev Store := List (String × SaleRecord)

/-- `db.collection('sales').doc(k).set(v)`: overwrite the document under
key `k`, creating it when absent. -/
def storeSet (store : Store) (k : String) (v : SaleRecord) : Store :=
  match store with
  | [] => [(k, v)]
  | p :: rest => if p.1 = k then (k, v) :: rest else p :: storeSet rest k v

/-- Read the document stored under key `k`. -/
def storeGet (store : Store) (k : String) : Option SaleRecord :=
  match store with
  | [] => none
  | p :: rest => if p.1 = k then some p.2 else storeGet rest k

/-- Number of ledger entries carrying key `k`. -/
def keyCount (store : Store) (k : String) : Nat :=
  (store.filter (fun p => p.1 == k)).length

/-! ## Intake workflow (handler, part_000 lines 84-139) -/

/-- The incoming webhook request: HTTP method and the form-decoded body
(`new URLSearchParams(event.body)` then `Object.fromEntries`), as the
key/value pairs the decoding yields. -/
structure IntakeEvent where
  httpMethod : String
  body : List (String × String)

/-- Outcome of the Firestore write attempt inside the inner try. -/
inductive WriteOutcome where
  | ok
  | writeThrow (msg : String)
  deriving DecidableEq

/-- The ambient effects of one intake invocation: the clock read by
`Date.now()` (also standing in for the server-assigned write instant)
and the outcomes of the three outbound calls. -/
structure Env where
  now : Nat
  groq : GroqOutcome
  email : EmailOutcome
  write : WriteOutcome

/-- The values the parse step (part_000 lines 94-100) binds. -/
structure ParsedSale where
  email : Option String
  orderId : String
  businessUrl : String
  amount : String
  deriving DecidableEq

/-- Step 2 of the handler: extract `email`, `orderId` (fallback
`ORD-<Date.now()>`), the business url candidate (nested custom field,
else top-level `website`, else `"Not provided"`) normalized by the
scheme/`www.` strip, and the amount string (`(parseInt(price)/100).toFixed(2)`
when `price` is truthy, else `"0.00"`). -/
def parseSale (now : Nat) (saleData : List (String × String)) : ParsedSale :=
  { email := jsGet saleData "email"
    orderId := jsOrStr (getTruthy saleData "sale_id") ("ORD-" ++ toString now)
    businessUrl :=
      stripSchemeWww (jsOrStr ((getTruthy saleData "custom_fields[website]").or
        (getTruthy saleData "website")) "Not provided")
    amount :=
      match getTruthy saleData "price" with
      | some p =>
        match jsParseInt p with
        | some n => jsToFixed 2 (Rat.divInt n 100)
        | none => "NaN"
      | none => "0.00" }

/-- The SaleRecord built at the persistence step from the parse,
generation and delivery results of the same invocation. -/
def buildSaleRecord (env : Env) (saleData : List (String × String)) : SaleRecord :=
  let ps := parseSale env.now saleData
  let auditContent := generateAIaudit ps.businessUrl env.groq
  let emailResult := sendAuditEmail ps.email ps.businessUrl auditContent ps.orderId env.email
  { orderId := ps.orderId
    customerEmail := ps.email
    businessUrl := ps.businessUrl
    amount := jsParseFloat ps.amount
    currency := jsOrStr (jsGet saleData "currency") "ZAR"
    auditGenerated := true
    emailDelivered := emailResult.success
    timestamp := env.now }

/-- JSON response bodies of the intake handler. -/
inductive ResponseBody where
  | errorBody (error : String)
  | successBody (success : Bool) (message : String) (order_id : String)
  deriving DecidableEq

/-- An HTTP response of the intake handler. -/
structure HttpResponse where
  statusCode : Nat
  body : ResponseBody
  deriving DecidableEq

/-- Which outbound side effects an invocation attempted. -/
structure Effects where
  generateCalled : Bool
  emailAttempted : Bool
  writeAttempted : Bool
  deriving DecidableEq

/-- The empty effect trace. -/
def noEffects : Effects := ⟨false, false, false⟩

/-- Result of one intake invocation: the response, the store after the
invocation, and the effect trace. -/
structure IntakeResult where
  response : HttpResponse
  store : Store
  effects : Effects

/-- The intake handler (part_000 lines 84-139): reject non-POST with 405
and no side effects; otherwise parse, generate, deliver, persist inside
a local try (a write fault is caught and only logged), and answer 200
with `{ success: emailResult.success, message, order_id }`. Every step
of the embedded pipeline is total, matching the source where steps 3-5
catch their own faults, so the outer catch (status 500) is unreachable. -/
def handler (env : Env) (event : IntakeEvent) (store : Store) : IntakeResult :=
  if event.httpMethod ≠ "POST" then
    { response := { statusCode := 405, body := .errorBody "Method not allowed" }
      store := store
      effects := noEffects }
  else
    let ps := parseSale env.now event.body
    let auditContent := generateAIaudit ps.businessUrl env.groq
    let emailResult := sendAuditEmail ps.email ps.businessUrl auditContent ps.orderId env.email
    let record := buildSaleRecord env event.body
    let storeAfter :=
      match env.write with
      | .ok => storeSet store ps.orderId record
      | .writeThrow _ => store
    { response :=
        { statusCode := 200
          body := .successBody emailResult.success
            "Cyrnel Origin audit workflow complete." ps.orderId }
      store := storeAfter
      effects := ⟨true, true, true⟩ }

/-! ## Summary aggregator (get-dashboard.mjs) -/

/-- A document as the dashboard reads it back: every field may be absent
(documents could have been written out of band), `none` on `amount` also
covering NaN. -/
structure StoredSale where
  orderId : Option String
  customerEmail : Option String
  businessUrl : Option String
  amount : Option Rat
  currency : Option String
  auditGenerated : Option Bool
  emailDelivered : Option Bool
  timestamp : Option Nat
  deriving DecidableEq

/-- `timestamp.toDate().toLocaleString('en-ZA')`: the locale rendering of
a present timestamp. The locale formatting itself is opaque plumbing; the
claims depend only on a present timestamp yielding its rendered string
and an absent one yielding `"N/A"`. -/
def toLocaleStringEnZA (t : Nat) : String :=
  toString t

/-- The display view pushed onto `recentSales` for one document
(get-dashboard.mjs lines 46-56), with its `||` defaults. -/
structure DisplaySale where
  id : String
  orderId : String
  customerEmail : String
  businessUrl : String
  amount : Rat
  currency : String
  auditGenerated : Bool
  emailDelivered : Bool
  timestamp : String
  deriving DecidableEq

/-- Projection of one stored document to its display view. -/
def displaySale (docId : String) (sale : StoredSale) : DisplaySale :=
  { id := docId
    orderId := jsOrStr sale.orderId docId
    customerEmail := jsOrStr sale.customerEmail "N/A"
    businessUrl := jsOrStr sale.businessUrl "N/A"
    amount := match sale.amount with | some q => q | none => 0
    currency := jsOrStr sale.currency "ZAR"
    auditGenerated := sale.auditGenerated.getD false
    emailDelivered := sale.emailDelivered.getD false
    timestamp :=
      match sale.timestamp with
      | some t => toLocaleStringEnZA t
      | none => "N/A" }

/-- Rational addition assembled directly from the fractions, so that it
evaluates by kernel reduction; equal to `+` on `Rat`. -/
def jsAdd (a b : Rat) : Rat :=
  Rat.divInt (a.num * (b.den : Int) + b.num * (a.den : Int)) ((a.den : Int) * (b.den : Int))

/-- `if (sale.amount) totalRevenue += sale.amount`: add the amount only
when it is truthy (present, nonzero, not NaN). -/
def addTruthyAmount (acc : Rat) (a : Option Rat) : Rat :=
  match a with
  | some q => if q = 0 then acc else jsAdd acc q
  | none => acc

/-- A JS value that is either a string or a number (`successRate` is the
string `toFixed(1)` when sales exist, the number `0` otherwise). -/
inductive JsVal where
  | jstr (s : String)
  | jnum (q : Rat)
  deriving DecidableEq

/-- The `summary` object of the dashboard response. -/
structure Summary where
  totalRevenue : String
  totalSales : Nat
  successRate : JsVal
  successfulDeliveries : Nat
  deriving DecidableEq

/-- The 200-response payload: summary plus the projected recent sales. -/
structure DashData where
  summary : Summary
  recentSales : List DisplaySale
  deriving DecidableEq

/-- The aggregation loop and summary computation of get-dashboard.mjs
(lines 40-76) over the documents the store read returned, in order. -/
def aggregate (docs : List (String × StoredSale)) : DashData :=
  let recentSales := docs.map (fun d => displaySale d.1 d.2)
  let totalRevenue := docs.foldl (fun acc d => addTruthyAmount acc d.2.amount) 0
  let successfulDeliveries := (docs.filter (fun d => d.2.emailDelivered == some true)).length
  let totalSales := recentSales.length
  let successRate : JsVal :=
    if totalSales > 0 then
      .jstr (jsToFixed 1 (Rat.divInt ((successfulDeliveries : Int) * 100) (totalSales : Int)))
    else .jnum 0
  { summary :=
      { totalRevenue := jsToFixed 2 totalRevenue
        totalSales := totalSales
        successRate := successRate
        successfulDeliveries := successfulDeliveries }
    recentSales := recentSales }

/-- Outcome of the ordered, limited Firestore read: the returned document
list (most recent first, at most 50 — the collaborator enforces that), or
a thrown read fault. -/
inductive ReadOutcome where
  | docs (l : List (String × StoredSale))
  | readThrow (msg : String)
  deriving DecidableEq

/-- Bodies of the dashboard handler's responses. -/
inductive DashBody where
  /-- `{ error: 'Unauthorized' }` -/
  | unauthorized
  /-- The 200 payload. -/
  | payload (d : DashData)
  /-- `{ error: 'Failed to fetch data', message }` -/
  | fetchFailed (msg : String)
  deriving DecidableEq

/-- Result of one dashboard invocation: status, body, and whether the
store read was attempted. -/
structure DashResult where
  statusCode : Nat
  body : DashBody
  readAttempted : Bool
  deriving DecidableEq

/-- The dashboard handler (get-dashboard.mjs lines 26-86): compare the
`key` query parameter against the configured secret (both possibly
absent) with strict inequality; on mismatch answer 401 without touching
the store; otherwise read, aggregate, and answer 200, converting a
thrown read fault into a 500. -/
def dashboardHandler (secret : Option String) (queryKey : Option String)
    (readResult : ReadOutcome) : DashResult :=
  if queryKey ≠ secret then
    { statusCode := 401, body := .unauthorized, readAttempted := false }
  else
    match readResult with
    | .docs l => { statusCode := 200, body := .payload (aggregate l), readAttempted := true }
    | .readThrow msg =>
      { statusCode := 500, body := .fetchFailed msg, readAttempted := true }

/-! ## Concrete fixtures for closed instantiations -/

/-- A stored document with every field absent. -/
def emptyStoredSale : StoredSale :=
  { orderId := none, customerEmail := none, businessUrl := none, amount := none
    currency := none, auditGenerated := none, emailDelivered := none, timestamp := none }

/-- Three stored documents, two of them with a delivered email. -/
def threeDocs : List (String × StoredSale) :=
  [("d1", { emptyStoredSale with emailDelivered := some true, amount := some 10 }),
   ("d2", { emptyStoredSale with emailDelivered := some false }),
   ("d3", { emptyStoredSale with emailDelivered := some true })]

/-! ## Helper lemmas -/

theorem getTruthy_ne_empty {l : List (String × String)} {k s : String}
    (h : getTruthy l k = some s) : s ≠ "" := by
  unfold getTruthy at h
  cases hg : jsGet l k with
  | none => rw [hg] at h; exact absurd h (by simp)
  | some v =>
    rw [hg] at h
    by_cases hv : v = ""
    · simp [hv] at h
    · simp only [if_neg hv, Option.some.injEq] at h
      exact h ▸ hv

theorem storeGet_storeSet (s : Store) (k : String) (v : SaleRecord) :
    storeGet (storeSet s k v) k = some v := by
  induction s with
  | nil => simp [storeSet, storeGet]
  | cons p rest ih =>
    by_cases h : p.1 = k
    · simp [storeSet, storeGet, h]
    · simp [storeSet, storeGet, h, ih]

theorem keyCount_storeSet (s : Store) (k : String) (v : SaleRecord)
    (h : keyCount s k ≤ 1) : keyCount (storeSet s k v) k = 1 := by
  induction s with
  | nil => simp [storeSet, keyCount]
  | cons p rest ih =>
    by_cases hp : p.1 = k
    · have hrest : keyCount rest k = 0 := by
        simp only [keyCount, List.filter_cons, hp] at h ⊢
        simpa [keyCount] using h
      simp only [storeSet, if_pos hp, keyCount, List.filter_cons]
      simpa [keyCount] using hrest
    · have hle : keyCount rest k ≤ 1 := by
        simpa [keyCount, List.filter_cons, hp] using h
      simp only [storeSet, if_neg hp, keyCount, List.filter_cons]
      simpa [hp, keyCount] using ih hle

theorem jsAdd_eq_add (a b : Rat) : jsAdd a b = a + b := by
  have ha : ((a.den : Rat)) ≠ 0 := by exact_mod_cast a.den_nz
  have hb : ((b.den : Rat)) ≠ 0 := by exact_mod_cast b.den_nz
  rw [jsAdd, Rat.divInt_eq_div]
  push_cast
  conv_rhs => rw [← Rat.num_div_den a, ← Rat.num_div_den b]
  rw [div_add_div _ _ ha hb]
  ring_nf

theorem addTruthy_foldl (docs : List (String × StoredSale)) (init : Rat) :
    docs.foldl (fun acc d => addTruthyAmount acc d.2.amount) init
      = init + (docs.map (fun d => d.2.amount.getD 0)).sum := by
  induction docs generalizing init with
  | nil => simp
  | cons d rest ih =>
    simp only [List.foldl_cons, List.map_cons, List.sum_cons]
    rw [ih]
    cases hd : d.2.amount with
    | none => simp [addTruthyAmount, hd]
    | some q =>
      by_cases hq : q = 0
      · simp [addTruthyAmount, hd, hq]
      · simp only [addTruthyAmount, hd, if_neg hq, jsAdd_eq_add, Option.getD_some]
        ring

theorem divInt_rate (s t : Nat) :
    Rat.divInt ((s : Int) * 100) (t : Int) = ((s : Rat) / (t : Rat)) * 100 := by
  rw [Rat.divInt_eq_div]
  push_cast
  ring

theorem divInt_cents (n : Int) :
    Rat.divInt n 100 = (n : Rat) / 100 := by
  rw [Rat.divInt_eq_div]
  norm_num

theorem mkRat_rate (s t : Nat) :
    mkRat ((s : Int) * 100) t = ((s : Rat) / (t : Rat)) * 100 := by
  rw [Rat.mkRat_eq_divInt, divInt_rate]

/-! ## Claim theorems -/

/-- C1: for every intake invocation that reaches the persistence step
(a POST request), the response is the same status-200
`{success, message, order_id}` body whether the ledger write succeeds or
throws — with `success` the delivery outcome and `order_id` the
parsed/generated order id — so the write fault never reaches the caller. -/
theorem c1_writeFaultInvisible (env : Env) (event : IntakeEvent) (store : Store)
    (msg : String) (h : event.httpMethod = "POST") :
    (handler { env with write := .ok } event store).response
        = (handler { env with write := .writeThrow msg } event store).response ∧
    (handler env event store).response.statusCode = 200 ∧
    (handler env event store).response.body
        = .successBody
            (sendAuditEmail (parseSale env.now event.body).email
              (parseSale env.now event.body).businessUrl
              (generateAIaudit (parseSale env.now event.body).businessUrl env.groq)
              (parseSale env.now event.body).orderId env.email).success
            "Cyrnel Origin audit workflow complete."
            (parseSale env.now event.body).orderId := by
  refine ⟨?_, ?_, ?_⟩ <;> simp [handler, h]

theorem c1_witness :
    (handler { Env.mk 5 GroqOutcome.fetchThrow (EmailOutcome.sent "id1") WriteOutcome.ok with
        write := WriteOutcome.ok }
      ⟨"POST", [("email", "a@b.com"), ("sale_id", "X1")]⟩ []).response
        = (handler { Env.mk 5 GroqOutcome.fetchThrow (EmailOutcome.sent "id1") WriteOutcome.ok with
            write := WriteOutcome.writeThrow "quota" }
          ⟨"POST", [("email", "a@b.com"), ("sale_id", "X1")]⟩ []).response :=
  (c1_writeFaultInvisible (Env.mk 5 GroqOutcome.fetchThrow (EmailOutcome.sent "id1") WriteOutcome.ok)
    ⟨"POST", [("email", "a@b.com"), ("sale_id", "X1")]⟩ [] "quota" rfl).1

/-- C3: the intake handler's outcome mapping: a non-POST method gets 405
with no store write and no outbound side effect; a POST request gets 200
regardless of delivery success; and no invocation of the embedded
pipeline yields 500 (the outer catch is reachable only through an
unhandled fault, and steps 2-5 are total). -/
theorem c3_statusMapping (env : Env) (event : IntakeEvent) (store : Store) :
    (event.httpMethod ≠ "POST" →
      (handler env event store).response.statusCode = 405 ∧
      (handler env event store).store = store ∧
      (handler env event store).effects = noEffects) ∧
    (event.httpMethod = "POST" → (handler env event store).response.statusCode = 200) ∧
    (handler env event store).response.statusCode ≠ 500 := by
  by_cases h : event.httpMethod = "POST" <;> simp [handler, h]

theorem c3_witness :
    (handler ⟨0, .fetchThrow, .sendThrow "x", .ok⟩ ⟨"GET", [("sale_id", "Z")]⟩ []).response.statusCode = 405 ∧
    (handler ⟨0, .fetchThrow, .sendThrow "x", .ok⟩ ⟨"GET", [("sale_id", "Z")]⟩ []).store = [] ∧
    (handler ⟨0, .fetchThrow, .sendThrow "x", .ok⟩ ⟨"GET", [("sale_id", "Z")]⟩ []).effects = noEffects :=
  (c3_statusMapping ⟨0, .fetchThrow, .sendThrow "x", .ok⟩ ⟨"GET", [("sale_id", "Z")]⟩ []).1 (by decide)

/-- C8: a dashboard request whose key does not match the secret gets the
401 unauthorized outcome and the store read is never attempted. -/
theorem c8_unauthorizedNoRead (secret queryKey : Option String) (r : ReadOutcome)
    (h : queryKey ≠ secret) :
    (dashboardHandler secret queryKey r).statusCode = 401 ∧
    (dashboardHandler secret queryKey r).body = .unauthorized ∧
    (dashboardHandler secret queryKey r).readAttempted = false := by
  simp [dashboardHandler, h]

theorem c8_witness :
    (dashboardHandler (some "s3cret") (some "wrong") (.docs threeDocs)).statusCode = 401 ∧
    (dashboardHandler (some "s3cret") (some "wrong") (.docs threeDocs)).body = .unauthorized ∧
    (dashboardHandler (some "s3cret") (some "wrong") (.docs threeDocs)).readAttempted = false :=
  c8_unauthorizedNoRead (some "s3cret") (some "wrong") (.docs threeDocs) (by decide)

/-- C10: the dashboard authorization is a plain equality test between the
`key` query parameter and the configured secret — it rejects with 401
exactly when they differ — and in particular an absent secret together
with an absent key passes the gate and yields the full 200 data
response (the read is attempted). -/
theorem c10_plainEqualityGate :
    (∀ (secret queryKey : Option String) (r : ReadOutcome),
      ((dashboardHandler secret queryKey r).statusCode = 401 ↔ queryKey ≠ secret)) ∧
    (∀ docs, dashboardHandler none none (.docs docs)
        = ⟨200, .payload (aggregate docs), true⟩) := by
  constructor
  · intro s k r
    by_cases h : k = s
    · subst h; cases r <;> simp [dashboardHandler]
    · simp [dashboardHandler, h]
  · intro docs; simp [dashboardHandler]

theorem c10_witness :
    dashboardHandler none none (.docs threeDocs)
      = ⟨200, .payload (aggregate threeDocs), true⟩ :=
  c10_plainEqualityGate.2 threeDocs

/-- C4: for every intake POST whose ledger write succeeds, the record
persisted under the parsed order id has `auditGenerated = true` (also on
the generation fallback path) and its `emailDelivered` equals the
`success` field of the response body of the same invocation. -/
theorem c4_recordFlagsMatchResponse (env : Env) (event : IntakeEvent) (store : Store)
    (hm : event.httpMethod = "POST") (hw : env.write = .ok) :
    ∃ rec : SaleRecord,
      storeGet (handler env event store).store (parseSale env.now event.body).orderId
          = some rec ∧
      rec.auditGenerated = true ∧
      (handler env event store).response.body
        = .successBody rec.emailDelivered "Cyrnel Origin audit workflow complete."
            rec.orderId := by
  refine ⟨buildSaleRecord env event.body, ?_, ?_, ?_⟩
  · simp [handler, hm, hw, storeGet_storeSet]
  · simp [buildSaleRecord]
  · simp [handler, hm, buildSaleRecord]

theorem c4_witness :
    ∃ rec : SaleRecord,
      storeGet (handler ⟨3, .fetchThrow, .sent "id9", .ok⟩
            ⟨"POST", [("sale_id", "S1"), ("email", "c@d.io")]⟩ []).store
          (parseSale 3 [("sale_id", "S1"), ("email", "c@d.io")]).orderId = some rec ∧
      rec.auditGenerated = true ∧
      (handler ⟨3, .fetchThrow, .sent "id9", .ok⟩
          ⟨"POST", [("sale_id", "S1"), ("email", "c@d.io")]⟩ []).response.body
        = .successBody rec.emailDelivered "Cyrnel Origin audit workflow complete."
            rec.orderId :=
  c4_recordFlagsMatchResponse ⟨3, .fetchThrow, .sent "id9", .ok⟩
    ⟨"POST", [("sale_id", "S1"), ("email", "c@d.io")]⟩ [] rfl rfl

/-- C5: two invocations carrying the same order id (into a ledger holding
at most one record under that key, as a keyed store does) leave exactly
one ledger record under that key, and its fields are those computed by
the second invocation — the write overwrites rather than duplicates. -/
theorem c5_idempotentOverwrite (env1 env2 : Env) (e1 e2 : IntakeEvent) (store : Store)
    (h1 : e1.httpMethod = "POST") (h2 : e2.httpMethod = "POST")
    (hw1 : env1.write = .ok) (hw2 : env2.write = .ok)
    (hk : (parseSale env1.now e1.body).orderId = (parseSale env2.now e2.body).orderId)
    (hwf : keyCount store ((parseSale env2.now e2.body).orderId) ≤ 1) :
    keyCount (handler env2 e2 (handler env1 e1 store).store).store
        ((parseSale env2.now e2.body).orderId) = 1 ∧
    storeGet (handler env2 e2 (handler env1 e1 store).store).store
        ((parseSale env2.now e2.body).orderId)
      = some (buildSaleRecord env2 e2.body) := by
  have hs1 : (handler env1 e1 store).store
      = storeSet store (parseSale env1.now e1.body).orderId (buildSaleRecord env1 e1.body) := by
    simp [handler, h1, hw1]
  have hs2 : (handler env2 e2 (handler env1 e1 store).store).store
      = storeSet (handler env1 e1 store).store (parseSale env2.now e2.body).orderId
          (buildSaleRecord env2 e2.body) := by
    simp [handler, h2, hw2]
  rw [hs2, hs1, hk]
  refine ⟨keyCount_storeSet _ _ _ ?_, storeGet_storeSet _ _ _⟩
  rw [keyCount_storeSet _ _ _ hwf]

theorem c5_witness :
    keyCount (handler ⟨2, .fetchThrow, .providerError "down", .ok⟩ ⟨"POST", [("sale_id", "A")]⟩
        (handler ⟨1, .fetchThrow, .sent "ok1", .ok⟩ ⟨"POST", [("sale_id", "A")]⟩ []).store).store
        ((parseSale 2 [("sale_id", "A")]).orderId) = 1 ∧
    storeGet (handler ⟨2, .fetchThrow, .providerError "down", .ok⟩ ⟨"POST", [("sale_id", "A")]⟩
        (handler ⟨1, .fetchThrow, .sent "ok1", .ok⟩ ⟨"POST", [("sale_id", "A")]⟩ []).store).store
        ((parseSale 2 [("sale_id", "A")]).orderId)
      = some (buildSaleRecord ⟨2, .fetchThrow, .providerError "down", .ok⟩ [("sale_id", "A")]) :=
  c5_idempotentOverwrite ⟨1, .fetchThrow, .sent "ok1", .ok⟩
    ⟨2, .fetchThrow, .providerError "down", .ok⟩
    ⟨"POST", [("sale_id", "A")]⟩ ⟨"POST", [("sale_id", "A")]⟩ []
    rfl rfl rfl rfl (by decide) (by decide)

/-- C2 (counterexample to the claim as stated): an ok response whose body
parses but whose optional-chained content lookup yields a nullish value
(for instance an empty `choices` array) is a malformed response body,
yet the generator returns the fixed string `"Audit generation completed."`,
which neither contains the given business url nor equals the templated
placeholder report. -/
theorem c2_counterexample :
    generateAIaudit "example.com" (.resp true (.choices none)) = "Audit generation completed." ∧
    strContains (generateAIaudit "example.com" (.resp true (.choices none))) "example.com" = false ∧
    generateAIaudit "example.com" (.resp true (.choices none)) ≠ placeholderReport "example.com" := by
  refine ⟨rfl, by decide, by decide⟩

/-- C2 (amended): the generator always returns a report string and never
propagates an error. On a transport error, a non-success status, or a
body whose field access throws (unparsable JSON or a missing choices
array), it returns the templated placeholder report, which embeds the
given business url; when the body parses but the optional-chained
content is nullish or empty without throwing, it instead returns the
fixed fallback string `"Audit generation completed."`; otherwise it
returns the service's content verbatim. -/
theorem c2_generatorFallback (businessUrl : String) (o : GroqOutcome) :
    (groqThrows o = true → generateAIaudit businessUrl o = placeholderReport businessUrl) ∧
    (∃ front back, placeholderReport businessUrl = front ++ businessUrl ++ back) ∧
    (groqNullContent o = true →
      generateAIaudit businessUrl o = "Audit generation completed.") ∧
    (groqThrows o = false → groqNullContent o = false →
      ∃ s, s ≠ "" ∧ o = .resp true (.choices (some s)) ∧
        generateAIaudit businessUrl o = s) := by
  refine ⟨?_, ?_, ?_, ?_⟩
  · intro h
    cases o with
    | fetchThrow => rfl
    | resp ok body =>
      cases ok <;> cases body <;> simp_all [groqThrows, generateAIaudit]
  · exact ⟨"**AI-Powered Business Automation Audit for ",
      "**\n\nYour audit is being finalized and will be delivered shortly.", rfl⟩
  · intro h
    cases o with
    | fetchThrow => simp [groqNullContent] at h
    | resp ok body =>
      cases ok with
      | false => simp [groqNullContent] at h
      | true =>
        cases body with
        | unparsable => simp [groqNullContent] at h
        | noChoices => simp [groqNullContent] at h
        | choices c =>
          cases c with
          | none => rfl
          | some s =>
            have hs : s = "" := by simpa [groqNullContent] using h
            simp [generateAIaudit, hs]
  · intro h1 h2
    cases o with
    | fetchThrow => simp [groqThrows] at h1
    | resp ok body =>
      cases ok with
      | false => simp [groqThrows] at h1
      | true =>
        cases body with
        | unparsable => simp [groqThrows] at h1
        | noChoices => simp [groqThrows] at h1
        | choices c =>
          cases c with
          | none => simp [groqNullContent] at h2
          | some s =>
            have hs : s ≠ "" := by simpa [groqNullContent] using h2
            exact ⟨s, hs, rfl, by simp [generateAIaudit, hs]⟩

theorem c2_witness :
    generateAIaudit "example.com" GroqOutcome.fetchThrow = placeholderReport "example.com" ∧
    generateAIaudit "example.com" (.resp false .noChoices) = placeholderReport "example.com" ∧
    generateAIaudit "example.com" (.resp true (.choices (some "report text"))) = "report text" :=
  ⟨(c2_generatorFallback "example.com" .fetchThrow).1 rfl,
   (c2_generatorFallback "example.com" (.resp false .noChoices)).1 rfl,
   by
    obtain ⟨s, -, hso, hres⟩ :=
      (c2_generatorFallback "example.com" (.resp true (.choices (some "report text")))).2.2.2
        rfl (by decide)
    cases hso
    exact hres⟩

/-- C9 (counterexample to the claim as stated): a stored record with no
`businessUrl` is projected to the display value `"N/A"`, not the
data-model default `"Not provided"` that the claim names. -/
theorem c9_counterexample :
    (displaySale "d1" emptyStoredSale).businessUrl = "N/A" ∧
    (displaySale "d1" emptyStoredSale).businessUrl ≠ "Not provided" := by
  refine ⟨rfl, by decide⟩

/-- C9 (amended): the aggregator's display view substitutes defaults for
missing fields — but a missing `businessUrl` renders as the generic
`"N/A"` (the same fallback as `customerEmail`), not as the §3 data-model
default `"Not provided"`; a missing `customerEmail` renders as `"N/A"`,
a missing `amount` as 0, a missing `currency` as `"ZAR"`, and an absent
`timestamp` as `"N/A"`. -/
theorem c9_displayDefaults (docId : String) (sale : StoredSale) :
    (sale.businessUrl = none → (displaySale docId sale).businessUrl = "N/A") ∧
    (sale.customerEmail = none → (displaySale docId sale).customerEmail = "N/A") ∧
    (sale.amount = none → (displaySale docId sale).amount = 0) ∧
    (sale.currency = none → (displaySale docId sale).currency = "ZAR") ∧
    (sale.timestamp = none → (displaySale docId sale).timestamp = "N/A") := by
  refine ⟨?_, ?_, ?_, ?_, ?_⟩ <;> intro h <;> simp [displaySale, h, jsOrStr]

theorem c9_witness :
    (displaySale "doc7" emptyStoredSale).businessUrl = "N/A" ∧
    (displaySale "doc7" emptyStoredSale).customerEmail = "N/A" ∧
    (displaySale "doc7" emptyStoredSale).amount = 0 ∧
    (displaySale "doc7" emptyStoredSale).currency = "ZAR" ∧
    (displaySale "doc7" emptyStoredSale).timestamp = "N/A" :=
  ⟨(c9_displayDefaults "doc7" emptyStoredSale).1 rfl,
   (c9_displayDefaults "doc7" emptyStoredSale).2.1 rfl,
   (c9_displayDefaults "doc7" emptyStoredSale).2.2.1 rfl,
   (c9_displayDefaults "doc7" emptyStoredSale).2.2.2.1 rfl,
   (c9_displayDefaults "doc7" emptyStoredSale).2.2.2.2 rfl⟩

/-- C6: the parse step extracts `orderId` from `sale_id` with fallback
`ORD-<currentEpochMillis>` when the field is absent (JS truthiness also
treats an empty value as absent); `businessUrl` prefers the nested
`custom_fields[website]` key, then the top-level `website` key, then
`"Not provided"`, and strips one optional leading `http://` or
`https://` and/or `www.` — so `"https://www.example.com"` becomes
`"example.com"` and `"example.com"` is unchanged; `amount` is the
integer minor-unit price divided by 100 formatted to two decimals
(`1999` becomes `"19.99"`), or `"0.00"` when `price` is absent. -/
theorem c6_parseExtraction (now : Nat) (saleData : List (String × String)) :
    (∀ s, getTruthy saleData "sale_id" = some s → (parseSale now saleData).orderId = s) ∧
    (getTruthy saleData "sale_id" = none →
      (parseSale now saleData).orderId = "ORD-" ++ toString now) ∧
    (∀ u, getTruthy saleData "custom_fields[website]" = some u →
      (parseSale now saleData).businessUrl = stripSchemeWww u) ∧
    (getTruthy saleData "custom_fields[website]" = none →
      ∀ u, getTruthy saleData "website" = some u →
        (parseSale now saleData).businessUrl = stripSchemeWww u) ∧
    (getTruthy saleData "custom_fields[website]" = none →
      getTruthy saleData "website" = none →
      (parseSale now saleData).businessUrl = "Not provided") ∧
    stripSchemeWww "https://www.example.com" = "example.com" ∧
    stripSchemeWww "example.com" = "example.com" ∧
    (∀ p n, getTruthy saleData "price" = some p → jsParseInt p = some n →
      (parseSale now saleData).amount = jsToFixed 2 ((n : Rat) / 100)) ∧
    (getTruthy saleData "price" = none → (parseSale now saleData).amount = "0.00") ∧
    jsToFixed 2 ((1999 : Rat) / 100) = "19.99" := by
  refine ⟨?_, ?_, ?_, ?_, ?_, by decide, by decide, ?_, ?_, ?_⟩
  · intro s hs
    simp [parseSale, hs, jsOrStr, getTruthy_ne_empty hs]
  · intro hs
    simp [parseSale, hs, jsOrStr]
  · intro u hu
    simp [parseSale, hu, Option.or, jsOrStr, getTruthy_ne_empty hu]
  · intro hc u hu
    simp [parseSale, hc, hu, Option.or, jsOrStr, getTruthy_ne_empty hu]
  · intro hc hw
    have : (parseSale now saleData).businessUrl = stripSchemeWww "Not provided" := by
      simp [parseSale, hc, hw, Option.or, jsOrStr]
    rw [this]; decide
  · intro p n hp hn
    rw [← divInt_cents]
    simp [parseSale, hp, hn]
  · intro hp
    simp [parseSale, hp]
  · have h1 : (1999 : Rat) / 100 = Rat.divInt 1999 100 := by
      rw [divInt_cents]; norm_num
    rw [h1]; decide

theorem c6_witness :
    (parseSale 9 [("sale_id", "ORD-1"), ("custom_fields[website]", "https://www.acme.io"),
        ("price", "1999")]).orderId = "ORD-1" ∧
    (parseSale 9 [("sale_id", "ORD-1"), ("custom_fields[website]", "https://www.acme.io"),
        ("price", "1999")]).businessUrl = stripSchemeWww "https://www.acme.io" ∧
    (parseSale 9 [("sale_id", "ORD-1"), ("custom_fields[website]", "https://www.acme.io"),
        ("price", "1999")]).amount = jsToFixed 2 ((1999 : Rat) / 100) ∧
    (parseSale 7 []).orderId = "ORD-" ++ toString 7 ∧
    (parseSale 7 []).businessUrl = "Not provided" ∧
    (parseSale 7 []).amount = "0.00" := by
  obtain ⟨a1, -, a3, -, -, -, -, a8, -, -⟩ :=
    c6_parseExtraction 9 [("sale_id", "ORD-1"),
      ("custom_fields[website]", "https://www.acme.io"), ("price", "1999")]
  obtain ⟨-, b2, -, -, b5, -, -, -, b9, -⟩ := c6_parseExtraction 7 []
  exact ⟨a1 "ORD-1" (by decide), a3 "https://www.acme.io" (by decide),
    a8 "1999" 1999 (by decide) (by decide), b2 (by decide),
    b5 (by decide) (by decide), b9 (by decide)⟩

/-- C7: over the records the store read returned, the aggregator computes
`totalSales` as the count, `successfulDeliveries` as the count of records
whose `emailDelivered` is exactly `true`, `totalRevenue` as the sum of
the amounts (a missing amount contributing 0) formatted to two decimals,
and `successRate` as `successfulDeliveries / totalSales * 100` rounded to
one decimal — `"66.7"` for 2 of 3 delivered — except that an empty
result yields the number 0, so no division by zero occurs. -/
theorem c7_summaryMetrics (docs : List (String × StoredSale)) :
    (aggregate docs).summary.totalSales = docs.length ∧
    (aggregate docs).summary.successfulDeliveries
      = (docs.filter (fun d => d.2.emailDelivered == some true)).length ∧
    (aggregate docs).summary.totalRevenue
      = jsToFixed 2 ((docs.map (fun d => d.2.amount.getD 0)).sum) ∧
    (docs.length = 0 → (aggregate docs).summary.successRate = JsVal.jnum 0) ∧
    (0 < docs.length →
      (aggregate docs).summary.successRate
        = JsVal.jstr (jsToFixed 1
            ((((docs.filter (fun d => d.2.emailDelivered == some true)).length : Rat)
                / (docs.length : Rat)) * 100))) ∧
    jsToFixed 1 (((2 : Rat) / 3) * 100) = "66.7" := by
  refine ⟨?_, ?_, ?_, ?_, ?_, ?_⟩
  · simp [aggregate]
  · simp [aggregate]
  · simp only [aggregate]
    rw [addTruthy_foldl]
    simp
  · intro h
    simp [aggregate, h]
  · intro h
    simp [aggregate, h, mkRat_rate]
  · have h1 : ((2 : Rat) / 3) * 100 = Rat.divInt 200 3 := by
      rw [Rat.divInt_eq_div]; push_cast; ring
    rw [h1]; decide

theorem c7_witness :
    (aggregate threeDocs).summary.totalSales = 3 ∧
    (aggregate threeDocs).summary.successfulDeliveries = 2 ∧
    (aggregate threeDocs).summary.successRate = JsVal.jstr "66.7" ∧
    (aggregate []).summary.successRate = JsVal.jnum 0 := by
  have h := c7_summaryMetrics threeDocs
  have h0 := c7_summaryMetrics ([] : List (String × StoredSale))
  refine ⟨?_, ?_, ?_, h0.2.2.2.1 rfl⟩
  · rw [h.1]; decide
  · rw [h.2.1]; decide
  · rw [h.2.2.2.2.1 (by decide)]
    have hf : (threeDocs.filter (fun d => d.2.emailDelivered == some true)).length = 2 := by
      decide
    have hl : threeDocs.length = 3 := by decide
    rw [hf, hl]
    have h2 : ((2 : Nat) : Rat) / ((3 : Nat) : Rat) * 100 = Rat.divInt 200 3 := by
      rw [Rat.divInt_eq_div]; push_cast; ring
    rw [h2]; decide

end Gumroad
